import Mathlib

/-!
# Labelled boxes of `model.hpp`

A shallow embedding of `struct box_t` from `src/model.hpp`: the record of four
corner points, a colour id, a tag id and a confidence, with its three member
functions `getName`, `setByName` and `getStandardPloygon`.

Modelling choices.

* `int` fields are `Int`.  The member functions only compare `tag_id` with
  constants and store constants between `0` and `11`, so no machine arithmetic
  (and no overflow) is involved.
* `qreal` (a C++ `double`) and `float` are carried as rationals.  The member
  functions never compute with them: they copy the stored values and build
  points from the literals `0.`, `660.`, `725.`, `780.` and `1180.`, which are
  integers and so exact in both representations.  Infinities and NaN are not
  represented; no member function inspects a stored scalar.
* `QString` is `String`.  `name == "Sentry"` is exact, case-sensitive equality
  of the whole string.  A `QString` holding an unpaired surrogate has no
  counterpart here; such a string equals none of the ASCII literals compared.
* `QPolygonF` is a list of points; `append` adds one point at the end.
* A non-`const` member function is a function from the box before the call to
  the returned value paired with the box after the call.  A `const` member
  function is a function of the box that returns only its value.
-/

namespace Model

/-- The Qt scalar `qreal`. -/
abbrev qreal := ℚ

/-- The Qt string type. -/
abbrev QString := String

/-- A point of the plane, `QPointF`.  Its default constructor gives `(0, 0)`. -/
structure QPointF where
  xp : qreal := 0
  yp : qreal := 0
  deriving DecidableEq, Repr

/-- A polygon, `QPolygonF`: the points in the order they were appended. -/
abbrev QPolygonF := List QPointF

/-- The member function `QPolygonF::append`. -/
def QPolygonF.append (pts : QPolygonF) (p : QPointF) : QPolygonF :=
  pts ++ [p]

/-- The record `box_t`, with the default member initialisers of the source:
`QPointF pts[4]; int color_id = 0, tag_id = 0; float conf = -1;`. -/
structure box_t where
  pts : Fin 4 → QPointF := fun _ => {}
  color_id : Int := 0
  tag_id : Int := 0
  conf : ℚ := -1

namespace box_t

/-- A default-constructed box: `box_t b;`. -/
def default_constructed : box_t := {}

/-- The member function `getName`: a `switch` on `tag_id`. -/
def getName (b : box_t) : QString :=
  match b.tag_id with
  | 0 => "Sentry"
  | 1 => "1"
  | 2 => "2"
  | 3 => "3_small"
  | 4 => "4_small"
  | 5 => "5_small"
  | 6 => "Outpost"
  | 7 => "Base_small"
  | 8 => "Base_big"
  | 9 => "3_big"
  | 10 => "4_big"
  | 11 => "5_big"
  | _ => "Unknown"

/-- The member function `setByName`: the ladder of string comparisons.  The
result is the returned `bool` and the box after the call. -/
def setByName (b : box_t) (name : QString) : Bool × box_t :=
  if name = "Sentry" then
    (true, { b with tag_id := 0 })
  else if name = "1" then
    (true, { b with tag_id := 1 })
  else if name = "2" then
    (true, { b with tag_id := 2 })
  else if name = "3_small" then
    (true, { b with tag_id := 3 })
  else if name = "4_small" then
    (true, { b with tag_id := 4 })
  else if name = "5_small" then
    (true, { b with tag_id := 5 })
  else if name = "Outpost" then
    (true, { b with tag_id := 6 })
  else if name = "Base_small" then
    (true, { b with tag_id := 7 })
  else if name = "Base_big" then
    (true, { b with tag_id := 8 })
  else if name = "3_big" then
    (true, { b with tag_id := 9 })
  else if name = "4_big" then
    (true, { b with tag_id := 10 })
  else if name = "5_big" then
    (true, { b with tag_id := 11 })
  else
    (false, b)

/-- The member function `getStandardPloygon` (spelled as in the source): four
points appended in turn, each coordinate chosen by the test
`2 <= tag_id && tag_id <= 7`. -/
def getStandardPloygon (b : box_t) : QPolygonF :=
  let pts : QPolygonF := []
  let pts := pts.append ⟨0, 0⟩
  let pts := pts.append ⟨0, if 2 ≤ b.tag_id ∧ b.tag_id ≤ 7 then 725 else 660⟩
  let pts := pts.append ⟨if 2 ≤ b.tag_id ∧ b.tag_id ≤ 7 then 780 else 1180,
    if 2 ≤ b.tag_id ∧ b.tag_id ≤ 7 then 725 else 660⟩
  let pts := pts.append ⟨if 2 ≤ b.tag_id ∧ b.tag_id ≤ 7 then 780 else 1180, 0⟩
  pts

end box_t

/-- The twelve names of the tag table, in the order of their ids. -/
def tagNames : List QString :=
  ["Sentry", "1", "2", "3_small", "4_small", "5_small", "Outpost",
   "Base_small", "Base_big", "3_big", "4_big", "5_big"]

/-- The shoelace sum of a polygon: the sum, over the consecutive pairs of
points taken cyclically, of `x_i * y_(i+1) - x_(i+1) * y_i`. -/
def shoelace (poly : QPolygonF) : ℚ :=
  ((poly.zip (poly.rotate 1)).map
    (fun pq => pq.1.xp * pq.2.yp - pq.2.xp * pq.1.yp)).sum

/-- The test "`s` ends with `suffix`", on the characters of the two strings. -/
def endsWith (s suffix : QString) : Bool :=
  decide (suffix.toList <:+ s.toList)

/-! ## Lemmas on the member functions -/

/-- The `switch` of `getName` read as a function of the tag alone. -/
theorem getName_mk (p : Fin 4 → QPointF) (c t : Int) (f : ℚ) :
    box_t.getName ⟨p, c, t, f⟩ = box_t.getName { tag_id := t } := rfl

/-- Outside `0..11` the `switch` takes its `default` branch. -/
theorem getName_default (b : box_t) (h : b.tag_id < 0 ∨ 11 < b.tag_id) :
    b.getName = "Unknown" := by
  unfold box_t.getName
  split <;> first | rfl | (rename_i e; rw [e] at h; omega)

/-- The ladder of `setByName` has thirteen outcomes: the name is none of the
twelve and the box is returned as it was with `false`, or the name is the one
`getName` gives for some tag `t` in `0..11` and the box is returned with
`tag_id` set to `t` and `true`. -/
theorem setByName_cases (b : box_t) (name : QString) :
    (name ∉ tagNames ∧ b.setByName name = (false, b)) ∨
      ∃ t : Int, 0 ≤ t ∧ t ≤ 11 ∧ name = box_t.getName { tag_id := t } ∧
        b.setByName name = (true, { b with tag_id := t }) := by
  unfold box_t.setByName
  by_cases h0 : name = "Sentry"
  · rw [if_pos h0]
    exact Or.inr ⟨0, by decide, by decide, h0, rfl⟩
  rw [if_neg h0]
  by_cases h1 : name = "1"
  · rw [if_pos h1]
    exact Or.inr ⟨1, by decide, by decide, h1, rfl⟩
  rw [if_neg h1]
  by_cases h2 : name = "2"
  · rw [if_pos h2]
    exact Or.inr ⟨2, by decide, by decide, h2, rfl⟩
  rw [if_neg h2]
  by_cases h3 : name = "3_small"
  · rw [if_pos h3]
    exact Or.inr ⟨3, by decide, by decide, h3, rfl⟩
  rw [if_neg h3]
  by_cases h4 : name = "4_small"
  · rw [if_pos h4]
    exact Or.inr ⟨4, by decide, by decide, h4, rfl⟩
  rw [if_neg h4]
  by_cases h5 : name = "5_small"
  · rw [if_pos h5]
    exact Or.inr ⟨5, by decide, by decide, h5, rfl⟩
  rw [if_neg h5]
  by_cases h6 : name = "Outpost"
  · rw [if_pos h6]
    exact Or.inr ⟨6, by decide, by decide, h6, rfl⟩
  rw [if_neg h6]
  by_cases h7 : name = "Base_small"
  · rw [if_pos h7]
    exact Or.inr ⟨7, by decide, by decide, h7, rfl⟩
  rw [if_neg h7]
  by_cases h8 : name = "Base_big"
  · rw [if_pos h8]
    exact Or.inr ⟨8, by decide, by decide, h8, rfl⟩
  rw [if_neg h8]
  by_cases h9 : name = "3_big"
  · rw [if_pos h9]
    exact Or.inr ⟨9, by decide, by decide, h9, rfl⟩
  rw [if_neg h9]
  by_cases h10 : name = "4_big"
  · rw [if_pos h10]
    exact Or.inr ⟨10, by decide, by decide, h10, rfl⟩
  rw [if_neg h10]
  by_cases h11 : name = "5_big"
  · rw [if_pos h11]
    exact Or.inr ⟨11, by decide, by decide, h11, rfl⟩
  rw [if_neg h11]
  refine Or.inl ⟨fun hm => ?_, rfl⟩
  simp only [tagNames, List.mem_cons, List.mem_singleton] at hm
  tauto

/-- On the tags `0..11` the `switch` never takes its `default` branch. -/
theorem getName_ne_Unknown (b : box_t) (h0 : 0 ≤ b.tag_id) (h11 : b.tag_id ≤ 11) :
    b.getName ≠ "Unknown" := by
  obtain ⟨p, c, t, f⟩ := b
  simp only at h0 h11
  rw [getName_mk]
  interval_cases t <;> decide

/-- The ladder of `setByName` rejects the string `"Unknown"`. -/
theorem setByName_Unknown (b : box_t) : b.setByName "Unknown" = (false, b) := by
  rcases setByName_cases b "Unknown" with ⟨_, hr⟩ | ⟨t, h0, h11, hn, _⟩
  · exact hr
  · exact (getName_ne_Unknown { tag_id := t } h0 h11 hn.symm).elim

/-- The `switch` of `getName` depends on the box through `tag_id` only. -/
theorem getName_tag (b : box_t) : b.getName = box_t.getName { tag_id := b.tag_id } :=
  rfl

/-- Which of the twelve names end with `_small`, and which with `_big`. -/
theorem endsWith_getName (t : Int) (h0 : 0 ≤ t) (h11 : t ≤ 11) :
    (endsWith (box_t.getName { tag_id := t }) "_small" = true ↔
        t = 3 ∨ t = 4 ∨ t = 5 ∨ t = 7) ∧
      (endsWith (box_t.getName { tag_id := t }) "_big" = true ↔
        t = 8 ∨ t = 9 ∨ t = 10 ∨ t = 11) := by
  interval_cases t <;> decide

/-- The rectangle returned when the range test `2 <= tag_id <= 7` holds. -/
theorem getStandardPloygon_of_test (b : box_t) (h : 2 ≤ b.tag_id ∧ b.tag_id ≤ 7) :
    b.getStandardPloygon = [⟨0, 0⟩, ⟨0, 725⟩, ⟨780, 725⟩, ⟨780, 0⟩] := by
  simp [box_t.getStandardPloygon, QPolygonF.append, h]

/-- The rectangle returned when the range test `2 <= tag_id <= 7` fails. -/
theorem getStandardPloygon_of_not_test (b : box_t)
    (h : ¬(2 ≤ b.tag_id ∧ b.tag_id ≤ 7)) :
    b.getStandardPloygon = [⟨0, 0⟩, ⟨0, 660⟩, ⟨1180, 660⟩, ⟨1180, 0⟩] := by
  simp [box_t.getStandardPloygon, QPolygonF.append, h]

/-- The shoelace sum of the rectangle `[(0,0), (0,h), (w,h), (w,0)]`. -/
theorem shoelace_rect (w h : ℚ) :
    shoelace [⟨0, 0⟩, ⟨0, h⟩, ⟨w, h⟩, ⟨w, 0⟩] = -2 * w * h := by
  have r : List.rotate ([⟨0, 0⟩, ⟨0, h⟩, ⟨w, h⟩, ⟨w, 0⟩] : QPolygonF) 1 =
      [⟨0, h⟩, ⟨w, h⟩, ⟨w, 0⟩, ⟨0, 0⟩] := rfl
  simp only [shoelace, r, List.zip_cons_cons, List.zip_nil_right, List.map_cons,
    List.map_nil, List.sum_cons, List.sum_nil]
  ring

/-! ## The claims -/

/-- C1. Round trip id → name → id: for every box `a` whose `tag_id` is in
`0..11` (any `pts`, `color_id`, `conf`) and every target box (any prior
`tag_id`), `setByName` on the target with `a.getName` returns `true` and leaves
the target with `tag_id` equal to that of `a`. -/
theorem setByName_getName_roundtrip (a target : box_t)
    (h0 : 0 ≤ a.tag_id) (h11 : a.tag_id ≤ 11) :
    (target.setByName a.getName).1 = true ∧
      (target.setByName a.getName).2.tag_id = a.tag_id := by
  obtain ⟨p, c, t, f⟩ := a
  simp only at h0 h11
  rw [getName_mk]
  interval_cases t <;> exact ⟨rfl, rfl⟩

/-- C1 at `tag_id = 9`, on a target that held tag `77`. -/
theorem setByName_getName_roundtrip_witness :
    (0 : Int) ≤ 9 ∧ (9 : Int) ≤ 11 ∧
      (box_t.setByName { tag_id := 77 }
          (box_t.getName { tag_id := 9, color_id := 2, conf := 1 / 2 })).1 = true ∧
      (box_t.setByName { tag_id := 77 }
          (box_t.getName { tag_id := 9, color_id := 2, conf := 1 / 2 })).2.tag_id = 9 :=
  ⟨by decide, by decide,
    setByName_getName_roundtrip { tag_id := 9, color_id := 2, conf := 1 / 2 }
      { tag_id := 77 } (by decide) (by decide)⟩

/-- C2. Failure is atomic: for every string that is not exactly one of the
twelve names `Sentry`, `1`, `2`, `3_small`, `4_small`, `5_small`, `Outpost`,
`Base_small`, `Base_big`, `3_big`, `4_big`, `5_big`, and every box, `setByName`
returns `false` and the box after the call is the box before it (so `tag_id`,
`color_id`, `conf` and the four `pts` are unchanged). -/
theorem setByName_unknown_atomic (b : box_t) (name : QString)
    (h : name ∉ tagNames) : b.setByName name = (false, b) := by
  rcases setByName_cases b name with ⟨_, hr⟩ | ⟨t, h0, h11, hn, _⟩
  · exact hr
  · exfalso
    apply h
    rw [hn]
    interval_cases t <;> decide

/-- C2 at the strings `""`, `"sentry"`, `"3"`, `"Unknown"` and `"Base"`, on a
box holding tag `4`, colour `1` and confidence `3/4`. -/
theorem setByName_unknown_atomic_witness :
    ("" ∉ tagNames ∧
        box_t.setByName { tag_id := 4, color_id := 1, conf := 3 / 4 } "" =
          (false, { tag_id := 4, color_id := 1, conf := 3 / 4 })) ∧
      ("sentry" ∉ tagNames ∧
        box_t.setByName { tag_id := 4, color_id := 1, conf := 3 / 4 } "sentry" =
          (false, { tag_id := 4, color_id := 1, conf := 3 / 4 })) ∧
      ("3" ∉ tagNames ∧
        box_t.setByName { tag_id := 4, color_id := 1, conf := 3 / 4 } "3" =
          (false, { tag_id := 4, color_id := 1, conf := 3 / 4 })) ∧
      ("Unknown" ∉ tagNames ∧
        box_t.setByName { tag_id := 4, color_id := 1, conf := 3 / 4 } "Unknown" =
          (false, { tag_id := 4, color_id := 1, conf := 3 / 4 })) ∧
      ("Base" ∉ tagNames ∧
        box_t.setByName { tag_id := 4, color_id := 1, conf := 3 / 4 } "Base" =
          (false, { tag_id := 4, color_id := 1, conf := 3 / 4 })) :=
  ⟨⟨by decide, setByName_unknown_atomic _ "" (by decide)⟩,
    ⟨by decide, setByName_unknown_atomic _ "sentry" (by decide)⟩,
    ⟨by decide, setByName_unknown_atomic _ "3" (by decide)⟩,
    ⟨by decide, setByName_unknown_atomic _ "Unknown" (by decide)⟩,
    ⟨by decide, setByName_unknown_atomic _ "Base" (by decide)⟩⟩

/-- C3. Round trip name → id → name: for every string and every box, if
`setByName name` returns `true` then `getName` on the box after the call
returns exactly `name`. -/
theorem getName_setByName_roundtrip (b : box_t) (name : QString)
    (h : (b.setByName name).1 = true) : (b.setByName name).2.getName = name := by
  rcases setByName_cases b name with ⟨_, hr⟩ | ⟨t, _, _, hn, hr⟩
  · rw [hr] at h
    exact (Bool.false_ne_true h).elim
  · rw [hr, hn]
    rfl

/-- C3 at the name `"Base_big"`, on a box that held tag `-5`. -/
theorem getName_setByName_roundtrip_witness :
    (box_t.setByName { tag_id := -5, color_id := 3 } "Base_big").1 = true ∧
      (box_t.setByName { tag_id := -5, color_id := 3 } "Base_big").2.getName =
        "Base_big" :=
  ⟨by decide, getName_setByName_roundtrip { tag_id := -5, color_id := 3 } "Base_big"
    (by decide)⟩

/-- C4. `getName` is the table on the valid ids: whatever `pts`, `color_id`
and `conf` are, the tags `0, 1, ..., 11` give `Sentry`, `1`, `2`, `3_small`,
`4_small`, `5_small`, `Outpost`, `Base_small`, `Base_big`, `3_big`, `4_big`,
`5_big` in this order (tag `3` gives `3_small`, tag `9` gives `3_big`), and
these twelve strings are pairwise distinct. -/
theorem getName_table (p : Fin 4 → QPointF) (c : Int) (f : ℚ) :
    (List.range 12).map (fun i : Nat => box_t.getName ⟨p, c, (i : Int), f⟩) =
        ["Sentry", "1", "2", "3_small", "4_small", "5_small", "Outpost",
          "Base_small", "Base_big", "3_big", "4_big", "5_big"] ∧
      box_t.getName ⟨p, c, 3, f⟩ = "3_small" ∧
      box_t.getName ⟨p, c, 9, f⟩ = "3_big" ∧
      List.Pairwise (fun x y : QString => x ≠ y)
        ["Sentry", "1", "2", "3_small", "4_small", "5_small", "Outpost",
          "Base_small", "Base_big", "3_big", "4_big", "5_big"] :=
  ⟨rfl, rfl, rfl, by decide⟩

/-- C5. For every box whose `tag_id` is outside `0..11` (negative, or at least
`12`), `getName` returns `"Unknown"`.  `getName` is a total function, so it
returns on every box. -/
theorem getName_out_of_range (b : box_t) (h : b.tag_id < 0 ∨ 12 ≤ b.tag_id) :
    b.getName = "Unknown" :=
  getName_default b (by omega)

/-- C5 at the tags `-1`, `12` and `999`. -/
theorem getName_out_of_range_witness :
    (((-1 : Int) < 0 ∨ (12 : Int) ≤ -1) ∧
        box_t.getName { tag_id := -1 } = "Unknown") ∧
      (((12 : Int) < 0 ∨ (12 : Int) ≤ 12) ∧
        box_t.getName { tag_id := 12 } = "Unknown") ∧
      (((999 : Int) < 0 ∨ (12 : Int) ≤ 999) ∧
        box_t.getName { tag_id := 999 } = "Unknown") :=
  ⟨⟨by decide, getName_out_of_range { tag_id := -1 } (by decide)⟩,
    ⟨by decide, getName_out_of_range { tag_id := 12 } (by decide)⟩,
    ⟨by decide, getName_out_of_range { tag_id := 999 } (by decide)⟩⟩

/-- C6. For every box, `getStandardPloygon` returns exactly four points, equal
to `[(0,0), (0,h), (w,h), (w,0)]` with `(w,h) = (780,725)` when
`2 <= tag_id <= 7` and `(w,h) = (1180,660)` for every other `tag_id`, the ids
outside `0..11` included.  In particular tag `3` gives
`[(0,0),(0,725),(780,725),(780,0)]`, and the tags `9`, `-1` and `99` give
`[(0,0),(0,660),(1180,660),(1180,0)]`. -/
theorem getStandardPloygon_rect (b : box_t) :
    b.getStandardPloygon.length = 4 ∧
      ((2 ≤ b.tag_id ∧ b.tag_id ≤ 7 ∧
          b.getStandardPloygon = [⟨0, 0⟩, ⟨0, 725⟩, ⟨780, 725⟩, ⟨780, 0⟩]) ∨
        (¬(2 ≤ b.tag_id ∧ b.tag_id ≤ 7) ∧
          b.getStandardPloygon = [⟨0, 0⟩, ⟨0, 660⟩, ⟨1180, 660⟩, ⟨1180, 0⟩])) ∧
      box_t.getStandardPloygon { b with tag_id := 3 } =
        [⟨0, 0⟩, ⟨0, 725⟩, ⟨780, 725⟩, ⟨780, 0⟩] ∧
      box_t.getStandardPloygon { b with tag_id := 9 } =
        [⟨0, 0⟩, ⟨0, 660⟩, ⟨1180, 660⟩, ⟨1180, 0⟩] ∧
      box_t.getStandardPloygon { b with tag_id := -1 } =
        [⟨0, 0⟩, ⟨0, 660⟩, ⟨1180, 660⟩, ⟨1180, 0⟩] ∧
      box_t.getStandardPloygon { b with tag_id := 99 } =
        [⟨0, 0⟩, ⟨0, 660⟩, ⟨1180, 660⟩, ⟨1180, 0⟩] := by
  refine ⟨rfl, ?_, ?_, ?_, ?_, ?_⟩
  · by_cases h : 2 ≤ b.tag_id ∧ b.tag_id ≤ 7
    · exact Or.inl ⟨h.1, h.2, by simp [box_t.getStandardPloygon, QPolygonF.append, h]⟩
    · exact Or.inr ⟨h, by simp [box_t.getStandardPloygon, QPolygonF.append, h]⟩
  all_goals simp [box_t.getStandardPloygon, QPolygonF.append]

/-- C7. Frame of `setByName`: for every string and every box, whether the call
succeeds or fails, `color_id`, `conf` and the four `pts` after the call equal
their values before it; the box after the call is the box before it with at
most `tag_id` replaced.  (`getName` and `getStandardPloygon` are `const`: they
return a value and no box.) -/
theorem setByName_frame (b : box_t) (name : QString) :
    (b.setByName name).2.color_id = b.color_id ∧
      (b.setByName name).2.conf = b.conf ∧
      (∀ i : Fin 4, (b.setByName name).2.pts i = b.pts i) ∧
      (b.setByName name).2 = { b with tag_id := (b.setByName name).2.tag_id } := by
  rcases setByName_cases b name with ⟨_, hr⟩ | ⟨t, _, _, _, hr⟩ <;> rw [hr] <;>
    exact ⟨rfl, rfl, fun _ => rfl, rfl⟩

/-- C8. A default-constructed `box_t` has `conf` equal to `-1` and `color_id`
equal to `0`. -/
theorem default_constructed_conf_color :
    box_t.default_constructed.conf = -1 ∧ box_t.default_constructed.color_id = 0 :=
  ⟨rfl, rfl⟩

/-- C9. Orientation of the standard polygon: for every box the four returned
points are `[(0,0), (0,h), (w,h), (w,0)]` for positive `w` and `h`, so they
start at the origin, and the shoelace sum over the cyclically consecutive
points of `x_i * y_(i+1) - x_(i+1) * y_i`, in exact arithmetic, equals
`-2 * w * h` and is strictly negative: the winding is counter-clockwise as seen
in image coordinates, where `y` grows downward. -/
theorem getStandardPloygon_orientation (b : box_t) :
    ∃ w h : ℚ, 0 < w ∧ 0 < h ∧
      b.getStandardPloygon = [⟨0, 0⟩, ⟨0, h⟩, ⟨w, h⟩, ⟨w, 0⟩] ∧
      b.getStandardPloygon.head? = some ⟨0, 0⟩ ∧
      shoelace b.getStandardPloygon = -2 * w * h ∧
      shoelace b.getStandardPloygon < 0 := by
  by_cases h : 2 ≤ b.tag_id ∧ b.tag_id ≤ 7
  · have e : b.getStandardPloygon = [⟨0, 0⟩, ⟨0, 725⟩, ⟨780, 725⟩, ⟨780, 0⟩] := by
      simp [box_t.getStandardPloygon, QPolygonF.append, h]
    refine ⟨780, 725, by norm_num, by norm_num, e, rfl, ?_, ?_⟩
    · rw [e, shoelace_rect]
    · rw [e, shoelace_rect]
      norm_num
  · have e : b.getStandardPloygon = [⟨0, 0⟩, ⟨0, 660⟩, ⟨1180, 660⟩, ⟨1180, 0⟩] := by
      simp [box_t.getStandardPloygon, QPolygonF.append, h]
    refine ⟨1180, 660, by norm_num, by norm_num, e, rfl, ?_, ?_⟩
    · rw [e, shoelace_rect]
    · rw [e, shoelace_rect]
      norm_num

/-- C10. `getName` and `getStandardPloygon` are functions of `tag_id` alone:
two boxes with equal `tag_id`, whatever their `pts`, `color_id` and `conf`,
get the same string from `getName` and the same point list from
`getStandardPloygon`. -/
theorem getName_getStandardPloygon_tag_only (a b : box_t)
    (h : a.tag_id = b.tag_id) :
    a.getName = b.getName ∧ a.getStandardPloygon = b.getStandardPloygon := by
  obtain ⟨pa, ca, ta, fa⟩ := a
  obtain ⟨pb, cb, tb, fb⟩ := b
  simp only at h
  subst h
  exact ⟨rfl, rfl⟩

/-- C10 at tag `5`, on two boxes that differ in `pts`, `color_id` and `conf`. -/
theorem getName_getStandardPloygon_tag_only_witness :
    (5 : Int) = 5 ∧
      box_t.getName { pts := fun _ => ⟨1, 2⟩, color_id := 1, tag_id := 5, conf := 1 / 2 } =
        box_t.getName { pts := fun _ => ⟨7, 3⟩, color_id := 3, tag_id := 5, conf := -1 } ∧
      box_t.getStandardPloygon
          { pts := fun _ => ⟨1, 2⟩, color_id := 1, tag_id := 5, conf := 1 / 2 } =
        box_t.getStandardPloygon
          { pts := fun _ => ⟨7, 3⟩, color_id := 3, tag_id := 5, conf := -1 } :=
  ⟨rfl, getName_getStandardPloygon_tag_only
    { pts := fun _ => ⟨1, 2⟩, color_id := 1, tag_id := 5, conf := 1 / 2 }
    { pts := fun _ => ⟨7, 3⟩, color_id := 3, tag_id := 5, conf := -1 } rfl⟩

/-- C11. Range invariant of `setByName`: for every string and every box, if
`setByName name` returns `true` then the `tag_id` after the call is in `0..11`;
and if the box before the call has `tag_id` in `0..11` then, whether the call
succeeds or not, the box after it has `tag_id` in `0..11` and its `getName` is
not `"Unknown"`. -/
theorem setByName_range_invariant (b : box_t) (name : QString) :
    ((b.setByName name).1 = true →
        0 ≤ (b.setByName name).2.tag_id ∧ (b.setByName name).2.tag_id ≤ 11) ∧
      (0 ≤ b.tag_id ∧ b.tag_id ≤ 11 →
        0 ≤ (b.setByName name).2.tag_id ∧ (b.setByName name).2.tag_id ≤ 11 ∧
          (b.setByName name).2.getName ≠ "Unknown") := by
  rcases setByName_cases b name with ⟨_, hr⟩ | ⟨t, h0, h11, _, hr⟩ <;> rw [hr]
  · exact ⟨fun h => (Bool.false_ne_true h).elim,
      fun hb => ⟨hb.1, hb.2, getName_ne_Unknown b hb.1 hb.2⟩⟩
  · exact ⟨fun _ => ⟨h0, h11⟩, fun _ => ⟨h0, h11, getName_ne_Unknown _ h0 h11⟩⟩

/-- C11 on a box holding tag `4`: the succeeding call with `"Base_big"` and the
failing call with `"base"` both leave a tag in `0..11` with a known name. -/
theorem setByName_range_invariant_witness :
    ((box_t.setByName { tag_id := 4 } "Base_big").1 = true ∧
        ((0 : Int) ≤ 4 ∧ (4 : Int) ≤ 11) ∧
        (box_t.setByName { tag_id := 4 } "Base_big").2.tag_id = 8 ∧
        0 ≤ (box_t.setByName { tag_id := 4 } "Base_big").2.tag_id ∧
        (box_t.setByName { tag_id := 4 } "Base_big").2.tag_id ≤ 11 ∧
        (box_t.setByName { tag_id := 4 } "Base_big").2.getName ≠ "Unknown") ∧
      (((0 : Int) ≤ 4 ∧ (4 : Int) ≤ 11) ∧
        (box_t.setByName { tag_id := 4 } "base").1 = false ∧
        0 ≤ (box_t.setByName { tag_id := 4 } "base").2.tag_id ∧
        (box_t.setByName { tag_id := 4 } "base").2.tag_id ≤ 11 ∧
        (box_t.setByName { tag_id := 4 } "base").2.getName ≠ "Unknown") :=
  ⟨⟨by decide, by decide, by decide,
      ((setByName_range_invariant { tag_id := 4 } "Base_big").1 (by decide)).1,
      ((setByName_range_invariant { tag_id := 4 } "Base_big").1 (by decide)).2,
      ((setByName_range_invariant { tag_id := 4 } "Base_big").2 (by decide)).2.2⟩,
    ⟨by decide, by decide,
      (setByName_range_invariant { tag_id := 4 } "base").2 (by decide)⟩⟩

/-- C12. Self round trip: for every box, with any integer `tag_id`, the call
`setByName(getName())` on that same box leaves the whole box unchanged, and it
returns `true` if and only if `0 <= tag_id <= 11` (outside that range the name
is `"Unknown"`, which `setByName` rejects). -/
theorem setByName_getName_self (b : box_t) :
    (b.setByName b.getName).2 = b ∧
      ((b.setByName b.getName).1 = true ↔ 0 ≤ b.tag_id ∧ b.tag_id ≤ 11) ∧
      (¬(0 ≤ b.tag_id ∧ b.tag_id ≤ 11) →
        b.getName = "Unknown" ∧ b.setByName "Unknown" = (false, b)) := by
  by_cases h : 0 ≤ b.tag_id ∧ b.tag_id ≤ 11
  · have e : b.setByName b.getName = (true, b) := by
      obtain ⟨p, c, t, f⟩ := b
      obtain ⟨h0, h11⟩ := h
      simp only at h0 h11
      rw [getName_mk]
      interval_cases t <;> rfl
    rw [e]
    exact ⟨rfl, ⟨fun _ => h, fun _ => rfl⟩, fun hn => (hn h).elim⟩
  · have e : b.getName = "Unknown" := getName_default b (by omega)
    rw [e, setByName_Unknown]
    exact ⟨rfl, ⟨fun hf => (Bool.false_ne_true hf).elim, fun hr => (h hr).elim⟩,
      fun _ => ⟨rfl, rfl⟩⟩

/-- C12 at the out-of-range tag `-3`: the name is `"Unknown"`, the call fails
and the box is unchanged. -/
theorem setByName_getName_self_witness :
    ¬((0 : Int) ≤ -3 ∧ (-3 : Int) ≤ 11) ∧
      box_t.getName { tag_id := -3, color_id := 2 } = "Unknown" ∧
      box_t.setByName { tag_id := -3, color_id := 2 } "Unknown" =
        (false, { tag_id := -3, color_id := 2 }) :=
  ⟨by decide, (setByName_getName_self { tag_id := -3, color_id := 2 }).2.2 (by decide)⟩

/-- C13. The name suffix agrees with the polygon size class: for every box
with `tag_id` in `0..11`, `getName` ends with `_small` exactly for the ids
`3, 4, 5, 7`, and then `getStandardPloygon` is the `780 x 725` rectangle;
`getName` ends with `_big` exactly for the ids `8, 9, 10, 11`, and then
`getStandardPloygon` is the `1180 x 660` rectangle. -/
theorem getName_suffix_size_class (b : box_t)
    (h0 : 0 ≤ b.tag_id) (h11 : b.tag_id ≤ 11) :
    (endsWith b.getName "_small" = true ↔
        b.tag_id = 3 ∨ b.tag_id = 4 ∨ b.tag_id = 5 ∨ b.tag_id = 7) ∧
      (endsWith b.getName "_small" = true →
        b.getStandardPloygon = [⟨0, 0⟩, ⟨0, 725⟩, ⟨780, 725⟩, ⟨780, 0⟩]) ∧
      (endsWith b.getName "_big" = true ↔
        b.tag_id = 8 ∨ b.tag_id = 9 ∨ b.tag_id = 10 ∨ b.tag_id = 11) ∧
      (endsWith b.getName "_big" = true →
        b.getStandardPloygon = [⟨0, 0⟩, ⟨0, 660⟩, ⟨1180, 660⟩, ⟨1180, 0⟩]) := by
  rw [getName_tag]
  obtain ⟨hs, hb⟩ := endsWith_getName b.tag_id h0 h11
  refine ⟨hs, fun h => ?_, hb, fun h => ?_⟩
  · exact getStandardPloygon_of_test b (by have := hs.1 h; omega)
  · exact getStandardPloygon_of_not_test b (by have := hb.1 h; omega)

/-- C13 at tag `7` (`Base_small`, the `780 x 725` rectangle) and at tag `10`
(`4_big`, the `1180 x 660` rectangle). -/
theorem getName_suffix_size_class_witness :
    (((0 : Int) ≤ 7 ∧ (7 : Int) ≤ 11) ∧
        endsWith (box_t.getName { tag_id := 7 }) "_small" = true ∧
        box_t.getStandardPloygon { tag_id := 7 } =
          [⟨0, 0⟩, ⟨0, 725⟩, ⟨780, 725⟩, ⟨780, 0⟩]) ∧
      (((0 : Int) ≤ 10 ∧ (10 : Int) ≤ 11) ∧
        endsWith (box_t.getName { tag_id := 10 }) "_big" = true ∧
        box_t.getStandardPloygon { tag_id := 10 } =
          [⟨0, 0⟩, ⟨0, 660⟩, ⟨1180, 660⟩, ⟨1180, 0⟩]) :=
  ⟨⟨by decide, by decide,
      (getName_suffix_size_class { tag_id := 7 } (by decide) (by decide)).2.1
        (by decide)⟩,
    ⟨by decide, by decide,
      (getName_suffix_size_class { tag_id := 10 } (by decide) (by decide)).2.2.2
        (by decide)⟩⟩

/-- C14. A default-constructed `box_t` has `tag_id` `0`: with no call to
`setByName` its `getName` returns `"Sentry"`, not `"Unknown"`, and its
`getStandardPloygon` returns `[(0,0),(0,660),(1180,660),(1180,0)]`.  It is
indistinguishable from a box labelled `Sentry`: `setByName "Sentry"` succeeds
on it without changing it, and any box after `setByName "Sentry"` has the same
`tag_id`, `getName` and `getStandardPloygon` as the default one. -/
theorem default_constructed_is_Sentry :
    box_t.default_constructed.tag_id = 0 ∧
      box_t.default_constructed.getName = "Sentry" ∧
      box_t.default_constructed.getName ≠ "Unknown" ∧
      box_t.default_constructed.getStandardPloygon =
        [⟨0, 0⟩, ⟨0, 660⟩, ⟨1180, 660⟩, ⟨1180, 0⟩] ∧
      box_t.default_constructed.setByName "Sentry" =
        (true, box_t.default_constructed) ∧
      ∀ b : box_t, (b.setByName "Sentry").1 = true ∧
        (b.setByName "Sentry").2.tag_id = box_t.default_constructed.tag_id ∧
        (b.setByName "Sentry").2.getName = box_t.default_constructed.getName ∧
        (b.setByName "Sentry").2.getStandardPloygon =
          box_t.default_constructed.getStandardPloygon := by
  refine ⟨rfl, rfl, by decide, ?_, rfl, fun b => ⟨rfl, rfl, rfl, rfl⟩⟩
  exact getStandardPloygon_of_not_test _ (by decide)

end Model
